import Mathlib

/-!
Verification development for the session-token service in
`src/backend/src/app.py` (Flask + PyJWT).

The embedding models:
 - the JWT payloads the service manipulates (`Payload`: the claims used by
   the code, each optional since a JWT payload may omit any of them);
 - token strings abstractly (`TokenRepr`): a token string is either
   structurally well-formed and signed with some key (`signed`), or not a
   well-formed JWT at all (`garbage`);
 - `jwt.decode(token, SECRET_KEY, algorithms=["HS256"])` as called by the
   code, with PyJWT default options: the signature is verified against the
   current key first; then the `exp` claim, when present, is compared to the
   current time (strictly: the token is live iff `now < exp`); a payload
   with no `exp` claim undergoes no expiry check;
 - the header-parsing phase of the `token_required` decorator
   (`headerStep`), faithful to `auth_header.split(" ")[1]` plus the
   truthiness check `if not token`;
 - the decode phase of `token_required` (`token_required_decode`);
 - the `/app` issuance endpoint (`get_token`), with the random bytes of
   `secrets.token_hex(16)` passed in as an explicit argument;
 - the `/validate` endpoint (`validate_session`), building the response
   JSON exactly as lines 187-203 of `app.py` do, and raising (modelled as
   `Except.error`) where the code calls `datetime.fromtimestamp` on a
   missing claim.

Keys are modelled as `Nat` (only equality of keys matters to HMAC
verification), timestamps as `Int` seconds (PyJWT serialises `datetime`
values to integer Unix timestamps).
-/

/-- The claim set carried inside a token. Each field is optional because a
JWT payload is a JSON object that may omit any of these keys. -/
structure Payload where
  session : Option String
  role : Option String
  iat : Option Int
  exp : Option Int
  deriving DecidableEq, Repr

/-- Abstract model of a token string: either a well-formed JWT signed with
some key, or a string that is not a well-formed JWT. -/
inductive TokenRepr where
  | garbage (s : String)
  | signed (payload : Payload) (key : Nat)
  deriving DecidableEq, Repr

/-- The four outcomes of `jwt.decode` as distinguished by the code's
exception handlers: success, `ExpiredSignatureError`, `DecodeError`
(structurally invalid) and `InvalidSignatureError`. -/
inductive DecodeResult where
  | valid (claims : Payload)
  | expired
  | malformed
  | sigInvalid
  deriving DecidableEq, Repr

/-- `jwt.decode(token, key, algorithms=["HS256"])` with PyJWT default
options: structural parse, then signature verification against `key`, then
the expiry check `now < exp` only when the payload carries an `exp` claim. -/
def decode (t : TokenRepr) (key : Nat) (now : Int) : DecodeResult :=
  match t with
  | .garbage _ => .malformed
  | .signed p k =>
    if k = key then
      match p.exp with
      | none => .valid p
      | some e => if now < e then .valid p else .expired
    else .sigInvalid

/-- `jwt.encode(payload, key, algorithm="HS256")`: deterministic signing of
the payload with the key, always producing a well-formed token. -/
def encode (p : Payload) (key : Nat) : TokenRepr :=
  .signed p key

/-- Outcome of the header-parsing phase of `token_required`
(app.py lines 25-36): headerless or empty-token requests are rejected as
missing, an `IndexError` from `split(" ")[1]` is rejected as bad format,
otherwise the extracted token string is handed to the decode phase. -/
inductive GateHeaderResult where
  | missing
  | malformedFormat
  | token (t : String)
  deriving DecidableEq, Repr

/-- Python `str.split(sep)` with an explicit one-character separator: the
string is cut at every occurrence of the separator and empty pieces are
kept, so the result always has one more piece than there are separator
occurrences (in particular `"".split(" ") == [""]`). -/
def pySplit (sep : Char) : List Char → List (List Char)
  | [] => [[]]
  | c :: cs =>
    let rest := pySplit sep cs
    if c = sep then [] :: rest
    else
      match rest with
      | [] => [[c]]
      | r :: rs => (c :: r) :: rs

/-- `header.split(" ")` as a list of strings. -/
def pySplitSpace (s : String) : List String :=
  (pySplit ' ' s.data).map String.mk

/-- Header-parsing phase of `token_required`: `token = None`; if the
`Authorization` header is present, `token = header.split(" ")[1]`, where an
`IndexError` returns the `Invalid token format` error; afterwards
`if not token` returns the `Token is missing` error (this also catches an
empty extracted token, `""` being falsy in Python). -/
def headerStep (h : Option String) : GateHeaderResult :=
  match h with
  | none => .missing
  | some s =>
    match (pySplitSpace s)[1]? with
    | none => .malformedFormat
    | some t => if t = "" then .missing else .token t

/-- Decode phase of `token_required` (app.py lines 38-45): a valid token
admits the request with its claims attached; `ExpiredSignatureError` maps to
the distinct `Token has expired` 401 error; every other
`InvalidTokenError` maps to the generic `Invalid token` 401 error. -/
def token_required_decode (t : TokenRepr) (key : Nat) (now : Int) :
    Except (String × Nat) Payload :=
  match decode t key now with
  | .valid c => .ok c
  | .expired => .error ("Token has expired", 401)
  | .malformed => .error ("Invalid token", 401)
  | .sigInvalid => .error ("Invalid token", 401)

/-- Hex digit characters, as produced by Python's hex encoding. -/
def hexDigit (n : Nat) : Char :=
  "0123456789abcdef".toList.getD n 'x'

/-- Whether a character belongs to the lowercase hexadecimal alphabet. -/
def isHexChar (c : Char) : Bool :=
  "0123456789abcdef".toList.contains c

/-- The character list of the hex encoding of a byte sequence: two hex
digits per byte, high nibble first. -/
def tokenHexChars : List Nat → List Char
  | [] => []
  | b :: bs => hexDigit (b / 16 % 16) :: hexDigit (b % 16) :: tokenHexChars bs

/-- `secrets.token_hex(nbytes)` applied to the given random bytes: the hex
encoding of the bytes, two characters per byte. -/
def token_hex (bs : List Nat) : String :=
  String.mk (tokenHexChars bs)

/-- The payload built by `get_token` for a fresh token (app.py lines
87-92): the fresh session id, the fixed role `User`, `iat = now` and
`exp = now + 24h` (86400 seconds). -/
def freshPayload (sid : String) (now : Int) : Payload :=
  { session := some sid, role := some "User", iat := some now,
    exp := some (now + 86400) }

/-- The JSON body returned by `/app`: token, session, role, reused flag. -/
structure IssueResponse where
  token : TokenRepr
  session : Option String
  role : Option String
  reused : Bool
  deriving DecidableEq, Repr

/-- The bearer input reaching `get_token`: no `Authorization` header, a
header whose `split(" ")` has no second part (the caught `IndexError`), or
an extracted token. -/
inductive IssuanceInput where
  | noHeader
  | badHeader
  | withToken (t : TokenRepr)
  deriving DecidableEq, Repr

/-- Fresh-issuance path of `get_token` (app.py lines 83-104): generate the
session id from the random bytes, sign the fresh payload, answer 200 with
`reused = false`. -/
def freshIssue (key : Nat) (now : Int) (randomBytes : List Nat) :
    IssueResponse × Nat :=
  let sid := token_hex randomBytes
  ({ token := encode (freshPayload sid now) key, session := some sid,
     role := some "User", reused := false }, 200)

/-- The `/app` endpoint (app.py lines 52-104): if a token was extracted
from the header and decodes as valid, answer 200 with the identical token,
its `session` and `role` claims and `reused = true`; on any decode failure,
a header `IndexError`, or no header at all, fall through to fresh issuance.
The random bytes consumed by `secrets.token_hex(16)` are an explicit
argument. -/
def get_token (inp : IssuanceInput) (key : Nat) (now : Int)
    (randomBytes : List Nat) : IssueResponse × Nat :=
  match inp with
  | .withToken t =>
    match decode t key now with
    | .valid c =>
      ({ token := t, session := c.session, role := c.role, reused := true },
       200)
    | _ => freshIssue key now randomBytes
  | _ => freshIssue key now randomBytes

/-- JSON values, enough to state what the `/validate` response body holds. -/
inductive JVal where
  | null
  | str (s : String)
  | bool (b : Bool)
  | int (n : Int)
  | obj (fields : List (String × JVal))

/-- An optional string as a JSON value (`None` serialises to `null`). -/
def optStrJ : Option String → JVal
  | none => .null
  | some s => .str s

/-- A JSON object field that is present only when the claim is. -/
def optFieldS (k : String) : Option String → List (String × JVal)
  | none => []
  | some s => [(k, .str s)]

/-- A JSON object field that is present only when the claim is. -/
def optFieldI (k : String) : Option Int → List (String × JVal)
  | none => []
  | some n => [(k, .int n)]

/-- The decoded payload dictionary as serialised into `token_info`. -/
def payloadJ (p : Payload) : JVal :=
  .obj (optFieldS "session" p.session ++ optFieldS "role" p.role ++
        optFieldI "iat" p.iat ++ optFieldI "exp" p.exp)

/-- `datetime.utcnow().isoformat()`: the textual rendering of the current
time; only its presence in the body matters to the claims, so the
formatting itself is abstracted to `toString`. -/
def isoTimestamp (now : Int) : String :=
  toString now

/-- Python truthiness of the `token` value from the JSON body: a string is
truthy iff non-empty; a well-formed signed JWT string is never empty. -/
def TokenRepr.truthy : TokenRepr → Bool
  | .garbage s => s != ""
  | .signed _ _ => true

/-- The `/validate` endpoint (app.py lines 107-205). Inputs: the `session`
and `token` fields of the JSON body, the request metadata, the signing key
and the current time. Output: `Except.error` models an uncaught Python
exception (the `try` at line 153 catches only the two JWT errors, so the
`TypeError` raised by `datetime.fromtimestamp(None)` at lines 161-162, when
a validly signed token lacks an `iat` or `exp` claim, propagates);
otherwise the response body exactly as assembled at lines 187-203, the
HTTP status, and whether the session-mismatch warning of line 166 was
logged. -/
def validate_session (session : Option String) (token : Option TokenRepr)
    (clientIp userAgent : String) (key : Nat) (now : Int) :
    Except String (List (String × JVal) × Nat × Bool) :=
  let tTruthy := match token with
    | none => false
    | some t => t.truthy
  let phase : Except String (Bool × Option Payload × Option String × Bool) :=
    match token with
    | some t =>
      if t.truthy then
        match decode t key now with
        | .valid c =>
          match c.iat, c.exp with
          | some _, some _ =>
            let warned := match session with
              | none => false
              | some s => s != "" && c.session != some s
            .ok (true, some c, none, warned)
          | _, _ => .error "TypeError: fromtimestamp(None)"
        | .expired => .ok (false, none, some "Token expired", false)
        | .malformed => .ok (false, none, some "Invalid token", false)
        | .sigInvalid => .ok (false, none, some "Invalid token", false)
      else .ok (false, none, none, false)
    | none => .ok (false, none, none, false)
  match phase with
  | .error e => .error e
  | .ok (tv, info, err, warned) =>
    let body :=
      [("status", JVal.str "validation_complete"),
       ("session_received", optStrJ session),
       ("token_valid", JVal.bool tv),
       ("timestamp", JVal.str (isoTimestamp now)),
       ("diagnostics", JVal.obj
         [("client_ip", JVal.str clientIp),
          ("user_agent", JVal.str userAgent),
          ("token_provided", JVal.bool token.isSome),
          ("session_provided", JVal.bool session.isSome)])]
      ++ (if tv then
            [("token_info", payloadJ (info.getD ⟨none, none, none, none⟩))]
          else if tTruthy then
            [("token_error", JVal.str (err.getD "Unknown error"))]
          else [])
    .ok (body, 200, warned)

/-- C1 counterexample: the header `Bearer a b` has three space-separated
parts, so per the claim it must be rejected with the malformed-header
error, yet the gate extracts `a` as the token and proceeds to the decode
phase; and the header `Bearer ` splits into exactly a scheme and an empty
token part, which the claim routes to the malformed-header error, yet the
gate rejects it with the missing-token error. -/
theorem C1_counterexample :
    ((pySplitSpace "Bearer a b").length = 3 ∧
      headerStep (some "Bearer a b") = GateHeaderResult.token "a") ∧
    ((pySplitSpace "Bearer ").length = 2 ∧
      headerStep (some "Bearer ") = GateHeaderResult.missing ∧
      headerStep (some "Bearer ") ≠ GateHeaderResult.malformedFormat) := by
  decide

/-- C1 amended: if the Authorization header is absent the gate rejects
with the missing-token error; if the header is present but `split(" ")`
yields no second part the gate rejects with the malformed-format error; if
the second part exists but is empty the gate rejects with the
missing-token error; otherwise the second part is taken as the token (any
further space-separated parts are ignored, not rejected at header level). -/
theorem C1_header_amended (h : Option String) :
    (h = none → headerStep h = GateHeaderResult.missing) ∧
    (∀ s, h = some s → (pySplitSpace s).length < 2 →
      headerStep h = GateHeaderResult.malformedFormat) ∧
    (∀ s t, h = some s → (pySplitSpace s)[1]? = some t →
      (t = "" → headerStep h = GateHeaderResult.missing) ∧
      (t ≠ "" → headerStep h = GateHeaderResult.token t)) := by
  refine ⟨?_, ?_, ?_⟩
  · rintro rfl
    rfl
  · rintro s rfl hlen
    have hnone : (pySplitSpace s)[1]? = none := List.getElem?_eq_none (by omega)
    simp [headerStep, hnone]
  · rintro s t rfl hget
    refine ⟨?_, ?_⟩
    · rintro rfl
      simp [headerStep, hget]
    · intro ht
      simp [headerStep, hget, ht]

/-- C1 amended, witness at the header `Bearer abc`. -/
theorem C1_header_amended_witness :
    headerStep (some "Bearer abc") = GateHeaderResult.token "abc" :=
  ((C1_header_amended (some "Bearer abc")).2.2 "Bearer abc" "abc" rfl
    (by decide)).2 (by decide)

/-- C2 counterexample: a token signed with the current key whose payload
has no `expires_at` claim decodes as Valid at an arbitrarily late time, so
decode does return Valid for a payload whose expiry is not in the future
(the payload omits the expiry field). -/
theorem C2_counterexample :
    (Payload.exp ⟨some "s", some "User", some 0, none⟩ = none) ∧
    decode (TokenRepr.signed ⟨some "s", some "User", some 0, none⟩ 3) 3
        999999 =
      DecodeResult.valid ⟨some "s", some "User", some 0, none⟩ := by
  decide

/-- C2 amended: for every token whose decoded payload carries an
`expires_at` claim, a Valid decode outcome implies the current time is
strictly before that expiry; payloads omitting the expiry field undergo no
expiry check and can decode as Valid at any time. -/
theorem C2_valid_implies_unexpired (t : TokenRepr) (key : Nat) (now : Int)
    (c : Payload) (e : Int) (hv : decode t key now = DecodeResult.valid c)
    (he : c.exp = some e) : now < e := by
  cases t with
  | garbage s => simp [decode] at hv
  | signed p k =>
    by_cases hk : k = key
    · subst hk
      cases hp : p.exp with
      | none =>
        have hd : decode (TokenRepr.signed p k) k now =
            DecodeResult.valid p := by
          simp [decode, hp]
        rw [hd] at hv
        injection hv with hpc
        subst hpc
        rw [hp] at he
        exact absurd he (by simp)
      | some e2 =>
        by_cases hlt : now < e2
        · have hd : decode (TokenRepr.signed p k) k now =
              DecodeResult.valid p := by
            simp [decode, hp, hlt]
          rw [hd] at hv
          injection hv with hpc
          subst hpc
          rw [hp] at he
          injection he with hee
          subst hee
          exact hlt
        · have hd : decode (TokenRepr.signed p k) k now =
              DecodeResult.expired := by
            simp [decode, hp, hlt]
          rw [hd] at hv
          simp at hv
    · simp [decode, hk] at hv

/-- C2 amended, witness: a token with expiry 100 decoding as Valid at time
50 yields 50 < 100. -/
theorem C2_valid_implies_unexpired_witness : (50 : Int) < 100 :=
  C2_valid_implies_unexpired
    (TokenRepr.signed ⟨some "s", some "User", some 0, some 100⟩ 3) 3 50
    ⟨some "s", some "User", some 0, some 100⟩ 100 (by decide) rfl

/-- C3: for every claim set with an expiry, decoding the encoding of the
claim set under the same signing key, at any time strictly before the
expiry, yields Valid with the identical claims (round-trip law). -/
theorem C3_roundtrip (c : Payload) (key : Nat) (now e : Int)
    (he : c.exp = some e) (hnow : now < e) :
    decode (encode c key) key now = DecodeResult.valid c := by
  simp [encode, decode, he, hnow]

/-- C3 witness at a concrete claim set, key 7, time 50, expiry 100. -/
theorem C3_roundtrip_witness :
    decode (encode ⟨some "s", some "User", some 0, some 100⟩ 7) 7 50 =
      DecodeResult.valid ⟨some "s", some "User", some 0, some 100⟩ :=
  C3_roundtrip ⟨some "s", some "User", some 0, some 100⟩ 7 50 100 rfl
    (by decide)

/-- C7: a token signed with the current key whose expiry is not in the
future decodes as Expired, and the Authorization Gate rejects it with the
distinct `Token has expired` 401 error, which differs from the generic
`Invalid token` message used for the other decode failures. -/
theorem C7_expired_distinct (c : Payload) (key : Nat) (now e : Int)
    (he : c.exp = some e) (hpast : e ≤ now) :
    decode (TokenRepr.signed c key) key now = DecodeResult.expired ∧
    token_required_decode (TokenRepr.signed c key) key now =
      Except.error ("Token has expired", 401) ∧
    ("Token has expired" : String) ≠ "Invalid token" := by
  have hd : decode (TokenRepr.signed c key) key now = DecodeResult.expired := by
    simp [decode, he, show ¬ now < e by omega]
  exact ⟨hd, by simp [token_required_decode, hd], by decide⟩

/-- C7 witness: a token with expiry 100 presented at time 200 is rejected
by the gate with the expired error. -/
theorem C7_expired_distinct_witness :
    token_required_decode
        (TokenRepr.signed ⟨some "s", some "User", some 0, some 100⟩ 7) 7 200 =
      Except.error ("Token has expired", 401) :=
  (C7_expired_distinct ⟨some "s", some "User", some 0, some 100⟩ 7 200 100 rfl
    (by decide)).2.1

/-- C4: for every bearer token that decodes as Valid under the current
key, the issuance endpoint answers 200 with the identical token object,
the `session` and `role` claims decoded from it, and `reused = true`; the
random bytes for fresh issuance are never consumed. -/
theorem C4_reuse_idempotent (t : TokenRepr) (key : Nat) (now : Int)
    (bytes : List Nat) (c : Payload)
    (hv : decode t key now = DecodeResult.valid c) :
    get_token (IssuanceInput.withToken t) key now bytes =
      ({ token := t, session := c.session, role := c.role, reused := true },
       200) := by
  simp [get_token, hv]

/-- C4 witness at a concrete live token. -/
theorem C4_reuse_idempotent_witness :
    get_token (IssuanceInput.withToken
        (TokenRepr.signed ⟨some "abc", some "User", some 0, some 100⟩ 2)) 2 50
        [1, 2] =
      ({ token := TokenRepr.signed ⟨some "abc", some "User", some 0, some 100⟩ 2,
         session := some "abc", role := some "User", reused := true }, 200) :=
  C4_reuse_idempotent _ 2 50 [1, 2] ⟨some "abc", some "User", some 0, some 100⟩
    (by decide)

/-- C5: whenever the supplied bearer input does not carry a token that
decodes as Valid (expired, malformed, wrongly signed, an unparseable
header, or no header at all), the issuance endpoint still answers 200 with
`reused = false`, the answered token immediately decodes as Valid at the
same instant, and it differs from any supplied token; no decode failure is
surfaced to the caller. -/
theorem C5_fresh_on_failure (inp : IssuanceInput) (key : Nat) (now : Int)
    (bytes : List Nat)
    (hfail : ∀ t c, inp = IssuanceInput.withToken t →
      decode t key now ≠ DecodeResult.valid c) :
    (get_token inp key now bytes).2 = 200 ∧
    (get_token inp key now bytes).1.reused = false ∧
    decode (get_token inp key now bytes).1.token key now =
      DecodeResult.valid (freshPayload (token_hex bytes) now) ∧
    (∀ t, inp = IssuanceInput.withToken t →
      (get_token inp key now bytes).1.token ≠ t) := by
  have hlt : now < now + 86400 := by omega
  have hfresh : decode (encode (freshPayload (token_hex bytes) now) key) key
      now = DecodeResult.valid (freshPayload (token_hex bytes) now) := by
    simp [encode, decode, freshPayload, hlt]
  cases inp with
  | noHeader =>
    refine ⟨rfl, rfl, hfresh, ?_⟩
    intro t ht
    exact absurd ht (by simp)
  | badHeader =>
    refine ⟨rfl, rfl, hfresh, ?_⟩
    intro t ht
    exact absurd ht (by simp)
  | withToken t0 =>
    have hd : ∀ c, decode t0 key now ≠ DecodeResult.valid c := fun c =>
      hfail t0 c rfl
    have hg : get_token (IssuanceInput.withToken t0) key now bytes =
        freshIssue key now bytes := by
      cases hdec : decode t0 key now with
      | valid c => exact absurd hdec (hd c)
      | expired => simp [get_token, hdec]
      | malformed => simp [get_token, hdec]
      | sigInvalid => simp [get_token, hdec]
    rw [hg]
    refine ⟨rfl, rfl, hfresh, ?_⟩
    intro t ht heq
    injection ht with ht0
    subst ht0
    apply hd (freshPayload (token_hex bytes) now)
    rw [← heq]
    exact hfresh

/-- C5 witness: a garbage bearer token is silently replaced by a fresh
token that decodes as Valid. -/
theorem C5_fresh_on_failure_witness :
    decode (get_token (IssuanceInput.withToken (TokenRepr.garbage "junk")) 2
        50 [1, 2]).1.token 2 50 =
      DecodeResult.valid (freshPayload (token_hex [1, 2]) 50) :=
  (C5_fresh_on_failure (IssuanceInput.withToken (TokenRepr.garbage "junk")) 2
    50 [1, 2]
    (by
      intro t c ht
      injection ht with h
      subst h
      simp [decode])).2.2.1

/-- Each byte contributes exactly two characters to the hex encoding. -/
theorem tokenHexChars_length (bs : List Nat) :
    (tokenHexChars bs).length = 2 * bs.length := by
  induction bs with
  | nil => rfl
  | cons b bs ih =>
    simp [tokenHexChars, ih]
    omega

/-- Every hex digit of an arbitrary nibble is a hexadecimal character. -/
theorem hexDigit_isHex : ∀ m, m < 16 → isHexChar (hexDigit m) = true := by
  decide

/-- Every character of the hex encoding is a hexadecimal character. -/
theorem tokenHexChars_isHex (bs : List Nat) :
    ∀ ch ∈ tokenHexChars bs, isHexChar ch = true := by
  induction bs with
  | nil =>
    intro ch h
    simp [tokenHexChars] at h
  | cons b bs ih =>
    intro ch h
    simp only [tokenHexChars, List.mem_cons] at h
    rcases h with h | h | h
    · subst h
      exact hexDigit_isHex _ (Nat.mod_lt _ (by omega))
    · subst h
      exact hexDigit_isHex _ (Nat.mod_lt _ (by omega))
    · exact ih ch h

/-- C8: with no bearer input and 16 random bytes, the issuance endpoint
answers 200 with `reused = false`, a token signed with the current key
whose claims are the hex session id, the fixed role `User`, `iat = now`
and `exp = now + 86400` (24 hours), and the session id is a
32-hexadecimal-character string. -/
theorem C8_fresh_token_shape (key : Nat) (now : Int) (bytes : List Nat)
    (hlen : bytes.length = 16) :
    get_token IssuanceInput.noHeader key now bytes =
      ({ token := TokenRepr.signed (freshPayload (token_hex bytes) now) key,
         session := some (token_hex bytes), role := some "User",
         reused := false }, 200) ∧
    (token_hex bytes).length = 32 ∧
    (∀ ch ∈ (token_hex bytes).data, isHexChar ch = true) ∧
    (freshPayload (token_hex bytes) now).iat = some now ∧
    (freshPayload (token_hex bytes) now).exp = some (now + 86400) := by
  refine ⟨rfl, ?_, ?_, rfl, rfl⟩
  · show (tokenHexChars bytes).length = 32
    rw [tokenHexChars_length, hlen]
  · exact tokenHexChars_isHex bytes

/-- C8 witness: sixteen zero bytes yield a 32-character session id. -/
theorem C8_fresh_token_shape_witness :
    (token_hex (List.replicate 16 0)).length = 32 :=
  (C8_fresh_token_shape 7 0 (List.replicate 16 0) (by decide)).2.1

/-- C6 counterexample: at a concrete valid token with session `aaa` and a
caller-supplied session `bbb`, the response record contains exactly the
fields status, session_received, token_valid, timestamp, diagnostics and
token_info — no warning field flags the mismatch (the record is identical,
apart from the echoed session_received value, to the one produced when the
caller supplies the matching session `aaa`; only the logged-warning flag
differs). Moreover the record does not state which of the four decode
outcomes occurred: a structurally malformed token and a token signed with
a different key produce identical responses. -/
theorem C6_counterexample :
    (validate_session (some "bbb")
        (some (TokenRepr.signed ⟨some "aaa", some "User", some 0, some 1000⟩ 5))
        "ip" "ua" 5 10 =
      Except.ok
        ([("status", JVal.str "validation_complete"),
          ("session_received", JVal.str "bbb"),
          ("token_valid", JVal.bool true),
          ("timestamp", JVal.str (isoTimestamp 10)),
          ("diagnostics", JVal.obj
            [("client_ip", JVal.str "ip"),
             ("user_agent", JVal.str "ua"),
             ("token_provided", JVal.bool true),
             ("session_provided", JVal.bool true)]),
          ("token_info", JVal.obj
            [("session", JVal.str "aaa"),
             ("role", JVal.str "User"),
             ("iat", JVal.int 0),
             ("exp", JVal.int 1000)])],
         200, true)) ∧
    (validate_session (some "aaa")
        (some (TokenRepr.signed ⟨some "aaa", some "User", some 0, some 1000⟩ 5))
        "ip" "ua" 5 10 =
      Except.ok
        ([("status", JVal.str "validation_complete"),
          ("session_received", JVal.str "aaa"),
          ("token_valid", JVal.bool true),
          ("timestamp", JVal.str (isoTimestamp 10)),
          ("diagnostics", JVal.obj
            [("client_ip", JVal.str "ip"),
             ("user_agent", JVal.str "ua"),
             ("token_provided", JVal.bool true),
             ("session_provided", JVal.bool true)]),
          ("token_info", JVal.obj
            [("session", JVal.str "aaa"),
             ("role", JVal.str "User"),
             ("iat", JVal.int 0),
             ("exp", JVal.int 1000)])],
         200, false)) ∧
    decode (TokenRepr.garbage "xx") 5 10 = DecodeResult.malformed ∧
    decode (TokenRepr.signed ⟨some "aaa", some "User", some 0, some 1000⟩ 99)
        5 10 = DecodeResult.sigInvalid ∧
    validate_session (some "aaa") (some (TokenRepr.garbage "xx")) "ip" "ua" 5
        10 =
      validate_session (some "aaa")
        (some (TokenRepr.signed ⟨some "aaa", some "User", some 0, some 1000⟩
          99)) "ip" "ua" 5 10 :=
  ⟨rfl, rfl, rfl, rfl, rfl⟩

/-- C6 amended: when the reporter decodes a valid token (with integer
issued-at and expiry claims) whose session differs from a non-empty
caller-supplied session, the mismatch is flagged only through a logged
warning: the response is not blocked (status 200) and its record carries
exactly status, session_received, token_valid, timestamp, diagnostics and
token_info, with no mismatch field. The record reports the decode outcome
only as valid, `Token expired`, or `Invalid token`: the Malformed and
SignatureInvalid outcomes are merged, so the four outcomes are not all
distinguished. -/
theorem C6_mismatch_logged_only (c : Payload) (key : Nat) (now i e : Int)
    (s ip ua : String) (hi : c.iat = some i) (he : c.exp = some e)
    (hnow : now < e) (hs : s ≠ "") (hm : c.session ≠ some s) :
    (validate_session (some s) (some (TokenRepr.signed c key)) ip ua key now =
      Except.ok
        ([("status", JVal.str "validation_complete"),
          ("session_received", JVal.str s),
          ("token_valid", JVal.bool true),
          ("timestamp", JVal.str (isoTimestamp now)),
          ("diagnostics", JVal.obj
            [("client_ip", JVal.str ip),
             ("user_agent", JVal.str ua),
             ("token_provided", JVal.bool true),
             ("session_provided", JVal.bool true)]),
          ("token_info", payloadJ c)],
         200, true)) ∧
    (∀ t : TokenRepr, t.truthy = true →
      (decode t key now = DecodeResult.malformed ∨
        decode t key now = DecodeResult.sigInvalid) →
      validate_session (some s) (some t) ip ua key now =
        Except.ok
          ([("status", JVal.str "validation_complete"),
            ("session_received", JVal.str s),
            ("token_valid", JVal.bool false),
            ("timestamp", JVal.str (isoTimestamp now)),
            ("diagnostics", JVal.obj
              [("client_ip", JVal.str ip),
               ("user_agent", JVal.str ua),
               ("token_provided", JVal.bool true),
               ("session_provided", JVal.bool true)]),
            ("token_error", JVal.str "Invalid token")],
           200, false)) := by
  have hdec : decode (TokenRepr.signed c key) key now = DecodeResult.valid c := by
    simp [decode, he, hnow]
  have hbne1 : (s != "") = true := bne_iff_ne.mpr hs
  have hbne2 : (c.session != some s) = true := bne_iff_ne.mpr hm
  constructor
  · simp [validate_session, TokenRepr.truthy, optStrJ, hdec, hi, he, hbne1, hbne2]
  · intro t htr hbad
    rcases hbad with hb | hb
    · simp [validate_session, optStrJ, htr, hb]
    · simp [validate_session, optStrJ, htr, hb]

/-- C6 amended, witness at the concrete mismatching request. -/
theorem C6_mismatch_logged_only_witness :
    validate_session (some "bbb")
        (some (TokenRepr.signed ⟨some "aaa", some "User", some 0, some 1000⟩ 5))
        "ip" "ua" 5 10 =
      Except.ok
        ([("status", JVal.str "validation_complete"),
          ("session_received", JVal.str "bbb"),
          ("token_valid", JVal.bool true),
          ("timestamp", JVal.str (isoTimestamp 10)),
          ("diagnostics", JVal.obj
            [("client_ip", JVal.str "ip"),
             ("user_agent", JVal.str "ua"),
             ("token_provided", JVal.bool true),
             ("session_provided", JVal.bool true)]),
          ("token_info", payloadJ ⟨some "aaa", some "User", some 0, some 1000⟩)],
         200, true) :=
  (C6_mismatch_logged_only ⟨some "aaa", some "User", some 0, some 1000⟩ 5 10 0
    1000 "bbb" "ip" "ua" rfl rfl (by decide) (by decide) (by decide)).1

/-- C9: evaluation of the `/validate` endpoint at the failing input — a
token signed with the current key whose payload carries no `iat` and no
`exp` claim. The decode succeeds, so the code reaches
`datetime.fromtimestamp(decoded.get("iat"))`, which raises an uncaught
`TypeError` instead of producing the success response the claim (and the
specification) promise for every request. -/
theorem C9_crash_on_missing_claims :
    validate_session (some "s")
        (some (TokenRepr.signed ⟨some "s", some "User", none, none⟩ 4)) "ip"
        "ua" 4 10 =
      Except.error "TypeError: fromtimestamp(None)" :=
  rfl

/-- C10: when the `token` field of the request body is present but an
empty string, the response reports `token_provided = true`, yet
`token_valid` is false and the body carries neither a `token_info` nor a
`token_error` field (the falsy token skips the decode attempt entirely),
and the endpoint still answers 200. -/
theorem C10_empty_token (session : Option String) (ip ua : String)
    (key : Nat) (now : Int) :
    validate_session session (some (TokenRepr.garbage "")) ip ua key now =
      Except.ok
        ([("status", JVal.str "validation_complete"),
          ("session_received", optStrJ session),
          ("token_valid", JVal.bool false),
          ("timestamp", JVal.str (isoTimestamp now)),
          ("diagnostics", JVal.obj
            [("client_ip", JVal.str ip),
             ("user_agent", JVal.str ua),
             ("token_provided", JVal.bool true),
             ("session_provided", JVal.bool session.isSome)])],
         200, false) :=
  rfl
